import Mathlib

/- Verification of the core of apk-extractor.py: the connection state machine,
   the asynchronous command orchestrator, the progress monitor and the archive
   resolver. Strings are modeled as lists of characters; the text operations
   the source uses (strip, lower, substring membership, and the specific
   regular expressions) are embedded as executable functions. -/

/-- Whitespace set of Python str.strip and of the regex whitespace class
(ASCII subset; the source only meets ASCII tool output). -/
def isPyWhitespace (c : Char) : Bool :=
  c == ' ' || c == '\t' || c == '\n' || c == '\r' || c == '\x0b' || c == '\x0c'

/-- Python str.strip with no argument: remove whitespace from both ends. -/
def pyStrip (s : List Char) : List Char :=
  ((s.dropWhile isPyWhitespace).reverse.dropWhile isPyWhitespace).reverse

/-- Python str.lower, restricted to ASCII letters. -/
def pyLowerChar (c : Char) : Char :=
  if 'A' ≤ c ∧ c ≤ 'Z' then Char.ofNat (c.toNat + 32) else c

/-- Lower-casing of a whole string. -/
def pyLower (s : List Char) : List Char := s.map pyLowerChar

/-- Python substring membership, needle in hay: the needle occurs contiguously
somewhere in the hay (the empty needle is always a member). -/
def pyIn (needle : List Char) : List Char → Bool
  | [] => needle.isEmpty
  | c :: t => needle.isPrefixOf (c :: t) || pyIn needle t

/- ------------------------------------------------------------------ -/
/- Progress monitor: _update_download_progress                         -/
/- ------------------------------------------------------------------ -/

/-- Poll body of _update_download_progress, modeled during an in-flight pull:
the destination path is set exactly while the poll timer runs, so only the
file existence, the current size, the expected total and the previous bar
value vary. Python int truncation of (current/total)*100 on nonnegative exact
values equals floor division; IEEE rounding is below this embedding. When
neither branch applies (file exists but total is 0) the bar keeps its value. -/
def update_download_progress (fileExists : Bool) (currentSize totalSize barValue : Nat) : Nat :=
  if fileExists = true ∧ 0 < totalSize then currentSize * 100 / totalSize
  else if fileExists = false then 0
  else barValue

/- ------------------------------------------------------------------ -/
/- Wireless bootstrap success test: _on_tcpip_finished                 -/
/- ------------------------------------------------------------------ -/

def alreadyTcpipNeedle : List Char := "already in tcpip mode".toList

def restartingNeedle : List Char := "restarting in TCP mode".toList

/-- Success condition of _on_tcpip_finished: returncode == 0, or one of two
phrases found inside stdout.lower(). The second needle keeps its source
casing, uppercase TCP included, exactly as the Python literal does. -/
def on_tcpip_finished_success (returncode : Int) (stdout : List Char) : Bool :=
  returncode == 0 ||
    pyIn alreadyTcpipNeedle (pyLower stdout) ||
    pyIn restartingNeedle (pyLower stdout)

def restartingExactSample : List Char := "restarting in TCP mode port: 5555".toList

def alreadyMixedSample : List Char := "Already In TCPIP Mode".toList

/-- C5: the bootstrap success test does not accept the phrase restarting in
TCP mode in any casing: that needle contains uppercase letters and is searched
inside the lower-cased output, so the disjunct never fires, and a nonzero exit
with exactly that stdout is reported as failure. The other phrase is matched
case-insensitively and a zero exit code is accepted, which shows the
case-insensitive mechanism the dead disjunct was meant to share. -/
theorem c5_bug_eval :
    on_tcpip_finished_success 1 restartingExactSample = false ∧
    on_tcpip_finished_success 1 alreadyMixedSample = true ∧
    on_tcpip_finished_success 0 ([] : List Char) = true := by decide

/-- C2 counterexample: with expectedTotalBytes 100 and a local size of 200 the
poll reports 200, not the claimed clamped value min 100 (floor). -/
theorem c2_counterexample :
    update_download_progress true 200 100 0 = 200 ∧
    ¬ update_download_progress true 200 100 0 = min 100 (200 * 100 / 100) := by decide

/-- C2 amended: the reported percentage equals the floor of size*100/total
with no upper clamp; it agrees with the claimed clamped formula whenever the
size does not exceed the total, is 0 for a missing file with no error, and is
monotonically non-decreasing in the file size. -/
theorem c2_amended (sz tot bar : Nat) :
    (0 < tot → update_download_progress true sz tot bar = sz * 100 / tot) ∧
    update_download_progress false sz tot bar = 0 ∧
    (0 < tot → sz ≤ tot →
      update_download_progress true sz tot bar = min 100 (sz * 100 / tot)) ∧
    ∀ sz2, sz ≤ sz2 →
      update_download_progress true sz tot bar ≤ update_download_progress true sz2 tot bar := by
  refine ⟨?_, ?_, ?_, ?_⟩
  · intro h; simp [update_download_progress, h]
  · simp [update_download_progress]
  · intro h hle
    have h1 : sz * 100 / tot ≤ tot * 100 / tot :=
      Nat.div_le_div_right (mul_le_mul_right' hle 100)
    have h2 : tot * 100 / tot = 100 := Nat.mul_div_cancel_left 100 h
    have h100 : sz * 100 / tot ≤ 100 := h1.trans (le_of_eq h2)
    have hrep : update_download_progress true sz tot bar = sz * 100 / tot := by
      simp [update_download_progress, h]
    rw [hrep, min_eq_right h100]
  · intro sz2 hle
    by_cases h : 0 < tot
    · have e1 : update_download_progress true sz tot bar = sz * 100 / tot := by
        simp [update_download_progress, h]
      have e2 : update_download_progress true sz2 tot bar = sz2 * 100 / tot := by
        simp [update_download_progress, h]
      rw [e1, e2]
      exact Nat.div_le_div_right (mul_le_mul_right' hle 100)
    · have e1 : update_download_progress true sz tot bar = bar := by
        simp [update_download_progress, h]
      have e2 : update_download_progress true sz2 tot bar = bar := by
        simp [update_download_progress, h]
      rw [e1, e2]

/-- C2 witness: at half the expected total the reported percentage equals the
clamped floor (here 50). -/
theorem c2_witness :
    update_download_progress true 524288 1048576 0 = min 100 (524288 * 100 / 1048576) :=
  (c2_amended 524288 1048576 0).2.2.1 (by decide) (by decide)

/- ------------------------------------------------------------------ -/
/- Shared data model of the orchestrator                               -/
/- ------------------------------------------------------------------ -/

/-- Commands the orchestrator can dispatch to the bridge tool, from
_build_adb_command. -/
inductive AdbCmd
  | devices
  | connectIp (ip : List Char)
  | tcpipPort (port : List Char)
  | push (localPath remotePath : List Char)
  | execute (remotePath arg : List Char)
  | listPackages
  | statSize (path : List Char)
  | pull (remotePath localPath : List Char)
  | disconnectIp (ip : List Char)
deriving DecidableEq, Repr

/-- Connection type selected in the combo box. -/
inductive ConnType
  | usb
  | wifi
deriving DecidableEq, Repr

/-- Mutable fields of MainWindow that the core logic reads and writes. The
progress bar is modeled by its visibility and value. -/
structure CoreState where
  adb_available : Bool
  adb_connected : Bool
  connected_device_id : Option (List Char)
  apk_available : Bool
  last_extracted_apk_filename : Option (List Char)
  all_apk_paths : List (List Char × List Char)
  total_download_size : Nat
  current_local_download_path : Option (List Char)
  progress_visible : Bool
  progress_value : Nat
deriving DecidableEq, Repr

/- ------------------------------------------------------------------ -/
/- Execute step result: on_execute_finished                            -/
/- ------------------------------------------------------------------ -/

def apkMarkerNeedle : List Char := "APK Extracted: ".toList

def apkDotSuffix : List Char := ".apk".toList

/-- Greedy group of the pattern APK Extracted: (.+\.apk) once the literal
marker has matched: the dot of the regex does not cross a newline, and the
greedy one-or-more group makes the capture run to the last .apk occurrence on
the line that leaves at least one character for the group head. -/
def greedyApkGroup (r : List Char) : Option (List Char) :=
  let line := r.takeWhile (fun c => c != '\n')
  let idxs := (List.range line.length).filter
    (fun j => decide (1 ≤ j) && apkDotSuffix.isPrefixOf (line.drop j))
  match idxs.getLast? with
  | some j => some (line.take (j + 4))
  | none => none

/-- Unanchored search of re.search for the marker pattern: positions are tried
left to right; at a position where the literal marker matches but no group can
be formed, the search moves on. -/
def apkExtractedSearch : List Char → Option (List Char)
  | [] => none
  | c :: t =>
    if apkMarkerNeedle.isPrefixOf (c :: t) = true then
      match greedyApkGroup ((c :: t).drop 15) with
      | some g => some g
      | none => apkExtractedSearch t
    else apkExtractedSearch t

/-- Result interpretation of on_execute_finished restricted to the ready
artifact state it leaves behind: the pair is apk_available and
last_extracted_apk_filename. -/
def on_execute_finished (returncode : Int) (stdout : List Char) :
    Bool × Option (List Char) :=
  if returncode = 0 then
    match apkExtractedSearch stdout with
    | some g => (true, some (pyStrip g))
    | none => (false, none)
  else (false, none)

/-- Entry guard of download_apk_from_android: the download only proceeds when
an artifact is available and its filename is known. -/
def download_guard (apkAvailable : Bool) (lastFilename : Option (List Char)) : Bool :=
  apkAvailable && lastFilename.isSome

def extractedOnlyNeedle : List Char := "Extracted: ".toList

def extractedOnlySample : List Char := "Extracted: /sdcard/app.apk".toList

def c3GoodSample : List Char := "APK Extracted: /sdcard/Download/app.apk".toList

def c3GoodPath : List Char := "/sdcard/Download/app.apk".toList

/-- C3 counterexample: a successful execute whose stdout carries the bare
literal Extracted: followed by an apk path is NOT recorded: the source regex
requires the longer literal APK Extracted: and so the operation ends with no
ready artifact, and the download guard stays closed. -/
theorem c3_counterexample :
    pyIn extractedOnlyNeedle extractedOnlySample = true ∧
    apkDotSuffix.isSuffixOf extractedOnlySample = true ∧
    on_execute_finished 0 extractedOnlySample = (false, none) ∧
    download_guard (on_execute_finished 0 extractedOnlySample).1
      (on_execute_finished 0 extractedOnlySample).2 = false := by decide

/-- C3 amended: the recognized marker literal is APK Extracted: . With exit
code 0, a match records the stripped captured path as the ready artifact;
with no match the operation ends with apk_available false and no filename, so
a subsequent download cannot start. -/
theorem c3_amended (stdout : List Char) :
    (∀ g, apkExtractedSearch stdout = some g →
      on_execute_finished 0 stdout = (true, some (pyStrip g))) ∧
    (apkExtractedSearch stdout = none →
      on_execute_finished 0 stdout = (false, none) ∧
      download_guard (on_execute_finished 0 stdout).1
        (on_execute_finished 0 stdout).2 = false) := by
  constructor
  · intro g h; simp [on_execute_finished, h]
  · intro h
    have e : on_execute_finished 0 stdout = (false, none) := by
      simp [on_execute_finished, h]
    exact ⟨e, by rw [e]; rfl⟩

/-- C3 witness: a stdout with the real marker records the stripped path. -/
theorem c3_witness :
    on_execute_finished 0 c3GoodSample = (true, some (pyStrip c3GoodPath)) :=
  (c3_amended c3GoodSample).1 c3GoodPath (by decide)

/- ------------------------------------------------------------------ -/
/- Push-and-run chain: _on_transfer_finished_and_then_run              -/
/- ------------------------------------------------------------------ -/

def permissionNeedle : List Char := "Permission denied".toList

def missingPathNeedle : List Char := "No such file or directory".toList

/-- Diagnostics emitted on a failing push, beyond the raw output echo. -/
inductive PushDiag
  | genericFail
  | permissionDenied
  | missingPath
deriving DecidableEq, Repr

/-- Decision point of _on_transfer_finished_and_then_run: on exit code 0 the
execute command is dispatched; otherwise a generic failure diagnostic is
always emitted and the stderr text is sniffed, permission first and then, only
in its absence, the missing-path text; no further command is dispatched. -/
def on_transfer_finished_and_then_run (returncode : Int) (stderr : List Char)
    (remoteScript apkArg : List Char) : List PushDiag × List AdbCmd :=
  if returncode = 0 then ([], [AdbCmd.execute remoteScript apkArg])
  else
    ([PushDiag.genericFail] ++
      (if pyIn permissionNeedle stderr = true then [PushDiag.permissionDenied]
       else if pyIn missingPathNeedle stderr = true then [PushDiag.missingPath]
       else []),
     [])

def bothErrSample : List Char := "adb: error: Permission denied - No such file or directory".toList

def pdOnlySample : List Char := "adb: error: Permission denied".toList

/-- C8 counterexample: a failing push whose stderr contains the missing-path
text does NOT always yield the missing-path diagnostic: when the permission
text is present as well, the elif chain stops at the permission diagnostic. -/
theorem c8_counterexample :
    pyIn missingPathNeedle bothErrSample = true ∧
    PushDiag.missingPath ∉ (on_transfer_finished_and_then_run 1 bothErrSample [] []).1 := by decide

/-- C8 amended: the execute step is dispatched exactly when the push exit code
is 0. On failure nothing further is dispatched, the generic diagnostic is
always emitted, the permission diagnostic is emitted exactly when the stderr
contains Permission denied, and the missing-path diagnostic exactly when the
stderr contains No such file or directory and not Permission denied. -/
theorem c8_amended (rc : Int) (stderr remote arg : List Char) :
    (rc = 0 →
      on_transfer_finished_and_then_run rc stderr remote arg =
        ([], [AdbCmd.execute remote arg])) ∧
    (rc ≠ 0 →
      (on_transfer_finished_and_then_run rc stderr remote arg).2 = [] ∧
      PushDiag.genericFail ∈ (on_transfer_finished_and_then_run rc stderr remote arg).1 ∧
      (PushDiag.permissionDenied ∈ (on_transfer_finished_and_then_run rc stderr remote arg).1 ↔
        pyIn permissionNeedle stderr = true) ∧
      (PushDiag.missingPath ∈ (on_transfer_finished_and_then_run rc stderr remote arg).1 ↔
        (pyIn missingPathNeedle stderr = true ∧ pyIn permissionNeedle stderr = false))) := by
  constructor
  · intro h; simp [on_transfer_finished_and_then_run, h]
  · intro h
    cases hP : pyIn permissionNeedle stderr
    · cases hM : pyIn missingPathNeedle stderr
      · simp [on_transfer_finished_and_then_run, h, hP, hM]
      · simp [on_transfer_finished_and_then_run, h, hP, hM]
    · simp [on_transfer_finished_and_then_run, h, hP]

/-- C8 witness: a failed push with a permission stderr dispatches nothing. -/
theorem c8_witness :
    (on_transfer_finished_and_then_run 1 pdOnlySample [] []).2 = [] :=
  ((c8_amended 1 pdOnlySample [] []).2 (by decide)).1

/- ------------------------------------------------------------------ -/
/- Download size check: _on_apk_size_fetched and the pull start        -/
/- ------------------------------------------------------------------ -/

/-- Python str.isdigit on the ASCII output of stat: nonempty and all decimal
digits. -/
def pyIsDigitStr (s : List Char) : Bool := !s.isEmpty && s.all Char.isDigit

/-- Decimal reading of a digit string, as Python int does. -/
def digitsToNat (s : List Char) : Nat := s.foldl (fun n c => n * 10 + (c.toNat - 48)) 0

/-- Outcome tag of the size-check step. -/
inductive SizeFetchNext
  | proceedPull
  | abortDownload
deriving DecidableEq, Repr

/-- Decision point of _on_apk_size_fetched: the download proceeds to the pull
phase exactly when the exit code is 0 and the stripped stdout is all digits,
and then total_download_size is set to its value; otherwise the progress bar
is hidden and zeroed and the chain aborts. -/
def on_apk_size_fetched (st : CoreState) (returncode : Int) (stdout : List Char) :
    CoreState × SizeFetchNext :=
  if returncode = 0 ∧ pyIsDigitStr (pyStrip stdout) = true then
    ({ st with total_download_size := digitsToNat (pyStrip stdout) }, SizeFetchNext.proceedPull)
  else
    ({ st with progress_visible := false, progress_value := 0 }, SizeFetchNext.abortDownload)

/-- The pull start of _start_actual_apk_pull: the save path is supplied by a
collaborator dialog (out of core scope); with a path the pull command is
dispatched and the local destination recorded, with a cancelled dialog nothing
is dispatched and the progress bar is reset. -/
def start_actual_apk_pull (st : CoreState) (remotePath : List Char)
    (localSavePath : Option (List Char)) : CoreState × List AdbCmd :=
  match localSavePath with
  | none => ({ st with progress_visible := false, progress_value := 0 }, [])
  | some p => ({ st with current_local_download_path := some p }, [AdbCmd.pull remotePath p])

def baseApkName : List Char := "base.apk".toList

def apkPathSample : List Char := "/data/app/x/base.apk".toList

def usbIdSample : List Char := "ABCD1234".toList

/-- A Connected state with a populated package list and ready artifact, used
as a concrete pre-state. -/
def stConnected : CoreState :=
  { adb_available := true, adb_connected := true,
    connected_device_id := some usbIdSample, apk_available := true,
    last_extracted_apk_filename := some apkPathSample,
    all_apk_paths := [(baseApkName, apkPathSample)],
    total_download_size := 7, current_local_download_path := none,
    progress_visible := false, progress_value := 0 }

def sizeStdoutSample : List Char := "1048576\n".toList

/-- C9: the pull phase is entered exactly when the size check exits 0 with an
all-digit stripped stdout, in which case the expected total is set to its
decimal value; otherwise the chain aborts with the transient progress display
reset and, pull phase aside, a pull command is dispatched exactly when the
collaborator supplies a save path. -/
theorem c9_theorem (st : CoreState) (rc : Int) (stdout : List Char) :
    ((on_apk_size_fetched st rc stdout).2 = SizeFetchNext.proceedPull ↔
      (rc = 0 ∧ pyIsDigitStr (pyStrip stdout) = true)) ∧
    (rc = 0 → pyIsDigitStr (pyStrip stdout) = true →
      (on_apk_size_fetched st rc stdout).1.total_download_size =
        digitsToNat (pyStrip stdout)) ∧
    ((on_apk_size_fetched st rc stdout).2 = SizeFetchNext.abortDownload →
      (on_apk_size_fetched st rc stdout).1.progress_visible = false ∧
      (on_apk_size_fetched st rc stdout).1.progress_value = 0) ∧
    (∀ rp lp, (start_actual_apk_pull st rp (some lp)).2 = [AdbCmd.pull rp lp] ∧
      (start_actual_apk_pull st rp none).2 = []) := by
  refine ⟨?_, ?_, ?_, ?_⟩
  · by_cases h : rc = 0 ∧ pyIsDigitStr (pyStrip stdout) = true
    · simp [on_apk_size_fetched, h]
    · simp [on_apk_size_fetched, h]
  · intro h1 h2
    simp [on_apk_size_fetched, h1, h2]
  · intro habort
    by_cases h : rc = 0 ∧ pyIsDigitStr (pyStrip stdout) = true
    · exfalso; revert habort; simp [on_apk_size_fetched, h]
    · constructor <;> simp [on_apk_size_fetched, h]
  · intro rp lp; exact ⟨rfl, rfl⟩

/-- C9 witness: a size check exiting 0 with stdout 1048576 sets the expected
total to 1048576. -/
theorem c9_witness :
    (on_apk_size_fetched stConnected 0 sizeStdoutSample).1.total_download_size = 1048576 :=
  ((c9_theorem stConnected 0 sizeStdoutSample).2.1 rfl (by decide)).trans (by decide)

/- ------------------------------------------------------------------ -/
/- Archive resolver: _process_multi_apk_download and its gate          -/
/- ------------------------------------------------------------------ -/

/-- os.path.basename on posix paths: everything after the last slash. -/
def basenamePosix (p : List Char) : List Char :=
  (p.reverse.takeWhile (fun c => c != '/')).reverse

/-- os.path.join for two components: an absolute second component replaces the
first; otherwise a slash separates them unless the first is empty or already
ends in one. -/
def pathJoin (a b : List Char) : List Char :=
  if b.head? = some '/' then b
  else if a = [] ∨ a.getLast? = some '/' then a ++ b
  else a ++ '/' :: b

def extractedSuffix : List Char := "_extracted".toList

/-- The installable-unit entries of the archive listing: names ending in .apk,
in listing order. -/
def apkEntriesOf (entries : List (List Char)) : List (List Char) :=
  entries.filter (fun f => apkDotSuffix.isSuffixOf f)

/-- Canonical-primary test of the resolver loop. -/
def isBaseApk (e : List Char) : Bool := basenamePosix e == baseApkName

/-- Outcome of the resolver: the returned primary path, the entries actually
extracted, the warned entry list when no canonical entry exists, and the
corrupt-archive report. -/
structure MultiApkOutcome where
  primaryPath : Option (List Char)
  extractedEntries : List (List Char)
  warnedApkList : Option (List (List Char))
  corruptArchive : Bool
deriving DecidableEq, Repr

/-- The resolver _process_multi_apk_download over an abstract archive: none
models a file that zipfile cannot open (BadZipFile), some gives the entry name
listing. The loop with break over the apk entries is the first find of a
base.apk basename; only that entry is extracted, into the sibling directory
downloadedFilePath plus _extracted, and its joined path is returned. -/
def process_multi_apk_download (downloadedFilePath : List Char)
    (archive : Option (List (List Char))) : MultiApkOutcome :=
  match archive with
  | none => ⟨none, [], none, true⟩
  | some entries =>
    match (apkEntriesOf entries).find? isBaseApk with
    | some e =>
      ⟨some (pathJoin (downloadedFilePath ++ extractedSuffix) e), [e], none, false⟩
    | none => ⟨none, [], some (apkEntriesOf entries), false⟩

/-- os.path.splitext second component: the suffix from the last dot of the
basename, leading dots never starting an extension. -/
def splitextExt (p : List Char) : List Char :=
  let b := basenamePosix p
  let lead := (b.takeWhile (fun c => c == '.')).length
  let core := b.drop lead
  let tail := (core.reverse.takeWhile (fun c => c != '.')).reverse
  if tail.length = core.length then [] else '.' :: tail

def apksExt : List Char := ".apks".toList

def xapkExt : List Char := ".xapk".toList

def apkmExt : List Char := ".apkm".toList

def bundleExtensions : List (List Char) := [apksExt, xapkExt, apkmExt]

/-- Extension gate of on_apk_download_finished: the lower-cased splitext
extension is one of the three bundle families. -/
def bundle_extension_gate (p : List Char) : Bool :=
  bundleExtensions.contains (pyLower (splitextExt p))

/-- Successful-download tail of on_apk_download_finished: the resolver runs
exactly when the extension gate holds. -/
def on_apk_download_finished_resolver (localPath : List Char)
    (archive : Option (List (List Char))) : Option MultiApkOutcome :=
  if bundle_extension_gate localPath = true then
    some (process_multi_apk_download localPath archive)
  else none

def xapkPathSample : List Char := "app.xapk".toList

def splitConfigEntry : List Char := "split_config.apk".toList

/-- C4: for a bundle-extension download, a listing whose first base.apk
basename entry is e makes the resolver extract exactly that entry into the
sibling directory named with the _extracted suffix and return its joined path
as primary; a listing with no base.apk basename yields no primary path, no
extraction, and a warning carrying exactly the apk entries found; an archive
that cannot be opened yields the distinct corrupt outcome. -/
theorem c4_theorem (path : List Char) (entries : List (List Char))
    (hgate : bundle_extension_gate path = true) :
    (∀ e, (apkEntriesOf entries).find? isBaseApk = some e →
      on_apk_download_finished_resolver path (some entries) =
        some ⟨some (pathJoin (path ++ extractedSuffix) e), [e], none, false⟩) ∧
    ((apkEntriesOf entries).find? isBaseApk = none →
      on_apk_download_finished_resolver path (some entries) =
        some ⟨none, [], some (apkEntriesOf entries), false⟩) ∧
    on_apk_download_finished_resolver path none = some ⟨none, [], none, true⟩ := by
  refine ⟨?_, ?_, ?_⟩
  · intro e he
    simp [on_apk_download_finished_resolver, hgate, process_multi_apk_download, he]
  · intro hn
    simp [on_apk_download_finished_resolver, hgate, process_multi_apk_download, hn]
  · simp [on_apk_download_finished_resolver, hgate, process_multi_apk_download]

/-- C4 witness: a bundle holding split_config.apk and base.apk resolves to the
extracted base.apk as primary. -/
theorem c4_witness :
    on_apk_download_finished_resolver xapkPathSample (some [splitConfigEntry, baseApkName]) =
      some ⟨some (pathJoin (xapkPathSample ++ extractedSuffix) baseApkName),
        [baseApkName], none, false⟩ :=
  (c4_theorem xapkPathSample [splitConfigEntry, baseApkName] (by decide)).1 baseApkName (by decide)

/- ------------------------------------------------------------------ -/
/- Device enumeration parsing and the connection state machine         -/
/- ------------------------------------------------------------------ -/

def deviceWord : List Char := "device".toList

/-- Bounded digit group of the wireless pattern. The regex one-to-maxLen
greedy digit group is followed by a literal dot, colon or whitespace, none of
which is a digit, so any backtracked shorter choice would leave a digit where
the follower must match: the group matches exactly the maximal digit run,
provided its length is within bounds. -/
def octetAt (maxLen : Nat) (s : List Char) : Option (List Char × List Char) :=
  let d := s.takeWhile Char.isDigit
  if 1 ≤ d.length ∧ d.length ≤ maxLen then some (d, s.dropWhile Char.isDigit) else none

/-- One literal character of the pattern. -/
def expectCharAt (c : Char) : List Char → Option (List Char)
  | [] => none
  | c2 :: t => if c2 = c then some t else none

/-- The capture group of the wireless device pattern at a fixed position:
four dot-separated one-to-three digit groups, a colon, and one-to-five digits,
returning the captured text and the rest. -/
def ipPortAt (s : List Char) : Option (List Char × List Char) := do
  let (o1, s1) ← octetAt 3 s
  let s2 ← expectCharAt '.' s1
  let (o2, s3) ← octetAt 3 s2
  let s4 ← expectCharAt '.' s3
  let (o3, s5) ← octetAt 3 s4
  let s6 ← expectCharAt '.' s5
  let (o4, s7) ← octetAt 3 s6
  let s8 ← expectCharAt ':' s7
  let (pt, s9) ← octetAt 5 s8
  pure (o1 ++ '.' :: (o2 ++ '.' :: (o3 ++ '.' :: (o4 ++ ':' :: pt))), s9)

/-- Whole wireless pattern at a fixed position: the capture group, then
one-or-more whitespace (greedy; its follower is a non-whitespace letter, so
it is exactly the maximal whitespace run), then the literal word device. -/
def wifiMatchAt (s : List Char) : Option (List Char) :=
  match ipPortAt s with
  | none => none
  | some (grp, rest) =>
    let w := rest.takeWhile isPyWhitespace
    if 1 ≤ w.length ∧ deviceWord.isPrefixOf (rest.drop w.length) = true then some grp
    else none

/-- Unanchored re.search of the wireless device pattern: leftmost position
wins. Whitespace inside the pattern may cross newlines, as in the source. -/
def wifiSearch : List Char → Option (List Char)
  | [] => none
  | c :: t =>
    match wifiMatchAt (c :: t) with
    | some g => some g
    | none => wifiSearch t

/-- Anchored USB device pattern of a single line: an alphanumeric run, then
one-or-more whitespace, then the literal word device; the recorded identifier
is the text before the first whitespace of the match, which is the
alphanumeric run. Greedy runs are exact for the same follower reason. -/
def usbLineMatch (line : List Char) : Option (List Char) :=
  let a := line.takeWhile Char.isAlphanum
  let rest := line.drop a.length
  let w := rest.takeWhile isPyWhitespace
  if 1 ≤ a.length ∧ 1 ≤ w.length ∧ deviceWord.isPrefixOf (rest.drop w.length) = true then
    some a
  else none

/-- Multiline re.search of the anchored USB pattern over the whole output:
the anchor matches at the start and right after each newline, positions tried
left to right. -/
def usbMultilineGo : Bool → List Char → Option (List Char)
  | _, [] => none
  | atStart, c :: t =>
    if atStart = true then
      match usbLineMatch (c :: t) with
      | some g => some g
      | none => usbMultilineGo (c == '\n') t
    else usbMultilineGo (c == '\n') t

def usbMultilineSearch (s : List Char) : Option (List Char) := usbMultilineGo true s

/-- Detection of _on_adb_check_finished in the initial dialog: the wireless
pattern is searched over the whole output first, and only if it is absent is
the USB pattern searched. -/
def dialog_adb_check_detect (stdout : List Char) : Option (List Char) :=
  match wifiSearch stdout with
  | some ip => some ip
  | none => usbMultilineSearch stdout

/-- Python str.splitlines restricted to the line ends the bridge tool emits:
newline, carriage return, and their pair; no trailing empty line. -/
def pySplitlinesGo : List Char → List Char → List (List Char)
  | [], acc => if acc.isEmpty then [] else [acc.reverse]
  | '\r' :: '\n' :: t, acc => acc.reverse :: pySplitlinesGo t []
  | '\n' :: t, acc => acc.reverse :: pySplitlinesGo t []
  | '\r' :: t, acc => acc.reverse :: pySplitlinesGo t []
  | c :: t, acc => pySplitlinesGo t (c :: acc)

def pySplitlines (s : List Char) : List (List Char) := pySplitlinesGo s []

/-- Per-line test of the loop in on_test_connection_finished: the wireless
pattern is tried on the line first, then the anchored USB pattern. -/
def mainDetectLine (line : List Char) : Option (List Char) :=
  match wifiSearch line with
  | some ip => some ip
  | none => usbLineMatch line

/-- The loop with break: the first line matching either pattern decides. -/
def linesDetect (ls : List (List Char)) : Option (List Char) :=
  ls.findSome? mainDetectLine

/-- Device detection of on_test_connection_finished over the raw output. -/
def mainDetect (stdout : List Char) : Option (List Char) :=
  linesDetect (pySplitlines stdout)

/-- State transition of on_test_connection_finished: on a detected authorized
device the state becomes Connected with that identifier and the ready-artifact
fields cleared; otherwise Disconnected with identifier and artifact cleared.
The Wi-Fi echo of the identifier into the address text box is presentation
and is not modeled. -/
def on_test_connection_finished (st : CoreState) (stdout : List Char) : CoreState :=
  match mainDetect stdout with
  | some did =>
    { st with
      adb_connected := true, connected_device_id := some did,
      apk_available := false, last_extracted_apk_filename := none }
  | none =>
    { st with
      adb_connected := false, connected_device_id := none,
      apk_available := false, last_extracted_apk_filename := none }

/-- The disconnect reset _reset_adb_state_and_ui. -/
def reset_adb_state_and_ui (st : CoreState) : CoreState :=
  { st with
    adb_connected := false, connected_device_id := none,
    apk_available := false, last_extracted_apk_filename := none,
    progress_visible := false, progress_value := 0,
    all_apk_paths := [] }

/-- Enabled state of the connect control in _update_button_states. -/
def connect_btn_enabled (st : CoreState) : Bool := !st.adb_connected

/-- Dispatch phase of test_adb_connection: tool-missing and empty-address
guards, then the ready-artifact and progress reset, then the enumeration or
connect command. The routine does not consult adb_connected. -/
def test_adb_connection (st : CoreState) (ctype : ConnType) (ipText : List Char) :
    CoreState × List AdbCmd :=
  if st.adb_available = false then (st, [])
  else if ctype = ConnType.wifi ∧ pyStrip ipText = [] then (st, [])
  else
    let st1 :=
      { st with
        apk_available := false, last_extracted_apk_filename := none,
        progress_visible := false, progress_value := 0 }
    match ctype with
    | ConnType.usb => (st1, [AdbCmd.devices])
    | ConnType.wifi => (st1, [AdbCmd.connectIp (pyStrip ipText)])

def wifiIdSample : List Char := "192.168.1.5:5555".toList

def usbLineSample : List Char := "ABCD1234\tdevice".toList

def wifiLineSample : List Char := "192.168.1.5:5555\tdevice".toList

def headerLineSample : List Char := "List of devices attached".toList

def usbFirstStdout : List Char :=
  "List of devices attached\nABCD1234\tdevice\n192.168.1.5:5555\tdevice\n".toList

def wifiFirstStdout : List Char :=
  "List of devices attached\n192.168.1.5:5555\tdevice\nABCD1234\tdevice\n".toList

/-- C1 counterexample: an enumeration holding an authorized USB line before an
authorized wireless line makes the main connect flow record the USB
identifier on its transition to Connected, even though the wireless pattern
matches in the same output. -/
theorem c1_counterexample :
    (on_test_connection_finished stConnected usbFirstStdout).connected_device_id =
      some usbIdSample ∧
    wifiSearch usbFirstStdout = some wifiIdSample ∧
    usbIdSample ≠ wifiIdSample := by decide

/-- C1 amended: the initial-dialog check prefers the wireless identifier
regardless of line order, since the wireless pattern is searched over the
whole output first; the main connect flow scans line by line and the first
line matching either pattern wins, so the wireless identifier is recorded
exactly when the wireless line precedes every other matching line, with lines
after it free to hold an authorized USB entry. -/
theorem c1_amended :
    (∀ s ip, wifiSearch s = some ip → dialog_adb_check_detect s = some ip) ∧
    (∀ pre wline post ip, (∀ l ∈ pre, mainDetectLine l = none) →
      wifiSearch wline = some ip →
      linesDetect (pre ++ wline :: post) = some ip) := by
  constructor
  · intro s ip h; simp [dialog_adb_check_detect, h]
  · intro pre wline post ip hpre hw
    induction pre with
    | nil =>
      simp [linesDetect, List.findSome?_cons, mainDetectLine, hw]
    | cons a l ih =>
      have ha : mainDetectLine a = none := hpre a (by simp)
      have hl : ∀ x ∈ l, mainDetectLine x = none := fun x hx => hpre x (by simp [hx])
      simpa [linesDetect, List.findSome?_cons, ha] using ih hl

/-- C1 witness: the dialog detects the wireless identifier even when the USB
line comes first, and the main flow detects it when its line comes first. -/
theorem c1_witness :
    dialog_adb_check_detect usbFirstStdout = some wifiIdSample ∧
    linesDetect ([headerLineSample] ++ wifiLineSample :: [usbLineSample]) = some wifiIdSample :=
  ⟨c1_amended.1 usbFirstStdout wifiIdSample (by decide),
   c1_amended.2 [headerLineSample] wifiLineSample [usbLineSample] wifiIdSample
     (by decide) (by decide)⟩

/-- C6 counterexample: invoking the connect routine while already Connected is
not rejected and is not side-effect free: the ready-artifact flag is cleared
and an enumeration command is dispatched. -/
theorem c6_counterexample :
    stConnected.adb_connected = true ∧
    stConnected.apk_available = true ∧
    (test_adb_connection stConnected ConnType.usb []).2 ≠ [] ∧
    (test_adb_connection stConnected ConnType.usb []).1.apk_available = false := by decide

/-- C6 amended: whenever the tool is available and the address guard passes,
the connect routine proceeds regardless of the current connection state: it
leaves the device identifier and package list unchanged, clears the
ready-artifact state, and dispatches a command; re-connecting while Connected
is prevented only by the connect control being disabled exactly when
connected. -/
theorem c6_amended (st : CoreState) (ctype : ConnType) (ipText : List Char)
    (havail : st.adb_available = true)
    (hip : ctype = ConnType.usb ∨ pyStrip ipText ≠ []) :
    (test_adb_connection st ctype ipText).1.connected_device_id = st.connected_device_id ∧
    (test_adb_connection st ctype ipText).1.all_apk_paths = st.all_apk_paths ∧
    (test_adb_connection st ctype ipText).1.apk_available = false ∧
    (test_adb_connection st ctype ipText).1.last_extracted_apk_filename = none ∧
    (test_adb_connection st ctype ipText).2 ≠ [] ∧
    (st.adb_connected = true → connect_btn_enabled st = false) := by
  cases ctype with
  | usb =>
    refine ⟨?_, ?_, ?_, ?_, ?_, ?_⟩ <;>
      simp [test_adb_connection, havail, connect_btn_enabled]
  | wifi =>
    have hne : pyStrip ipText ≠ [] := by
      rcases hip with h | h
      · exact absurd h (by decide)
      · exact h
    refine ⟨?_, ?_, ?_, ?_, ?_, ?_⟩ <;>
      simp [test_adb_connection, havail, hne, connect_btn_enabled]

/-- C6 witness: with the tool available and a nonempty address, the connect
routine dispatches a command even from a Connected state. -/
theorem c6_witness :
    (test_adb_connection stConnected ConnType.wifi wifiIdSample).2 ≠ [] :=
  (c6_amended stConnected ConnType.wifi wifiIdSample (by decide)
    (Or.inr (by decide))).2.2.2.2.1

/-- C7 counterexample: a transition to Connected from a state still holding a
package list and a transfer total leaves both in place: the package list does
not become empty and the transfer byte count is not reset. -/
theorem c7_counterexample :
    (on_test_connection_finished stConnected wifiFirstStdout).adb_connected = true ∧
    (on_test_connection_finished stConnected wifiFirstStdout).all_apk_paths ≠ [] ∧
    (on_test_connection_finished stConnected wifiFirstStdout).total_download_size = 7 := by decide

/-- C7 amended: on every transition to Connected the detected identifier is
recorded and the ready-artifact state is cleared, while the package list and
the transfer byte count are left unchanged; the package list is emptied by the
disconnect reset instead. -/
theorem c7_amended (st : CoreState) (stdout : List Char) (did : List Char)
    (h : mainDetect stdout = some did) :
    (on_test_connection_finished st stdout).adb_connected = true ∧
    (on_test_connection_finished st stdout).connected_device_id = some did ∧
    (on_test_connection_finished st stdout).apk_available = false ∧
    (on_test_connection_finished st stdout).last_extracted_apk_filename = none ∧
    (on_test_connection_finished st stdout).all_apk_paths = st.all_apk_paths ∧
    (on_test_connection_finished st stdout).total_download_size = st.total_download_size ∧
    (reset_adb_state_and_ui st).all_apk_paths = [] ∧
    (reset_adb_state_and_ui st).adb_connected = false := by
  simp [on_test_connection_finished, h, reset_adb_state_and_ui]

/-- C7 witness: a wireless-first enumeration records the wireless identifier
on the transition to Connected. -/
theorem c7_witness :
    (on_test_connection_finished stConnected wifiFirstStdout).connected_device_id =
      some wifiIdSample :=
  (c7_amended stConnected wifiFirstStdout wifiIdSample (by decide)).2.1

/- ------------------------------------------------------------------ -/
/- Package listing parser: on_apk_paths_fetched                        -/
/- ------------------------------------------------------------------ -/

def packagePrefixNeedle : List Char := "package:".toList

/-- The two capture groups of the greedy pattern tail (.+)=(.+): the first
group is greedy, so the separator is the last equals sign that leaves at least
one character on each side; the second group then runs to the end of the
line. -/
def greedyEqSplit (s : List Char) : Option (List Char × List Char) :=
  match ((List.range s.length).filter
      (fun i => decide (1 ≤ i ∧ i + 1 < s.length ∧ s[i]? = some '='))).getLast? with
  | some i => some (s.take i, s.drop (i + 1))
  | none => none

/-- Unanchored re.search of the package line pattern: positions are tried left
to right; where the literal matches but no group split exists the search moves
on. -/
def searchPackageLine : List Char → Option (List Char × List Char)
  | [] => none
  | c :: t =>
    if packagePrefixNeedle.isPrefixOf (c :: t) = true then
      match greedyEqSplit ((c :: t).drop 8) with
      | some g => some g
      | none => searchPackageLine t
    else searchPackageLine t

/-- One PackageEntry of the listing loop: display text is the basename of the
stripped second group, the stored remote path is that stripped group. -/
def parsePackageLine (line : List Char) : Option (List Char × List Char) :=
  (searchPackageLine line).map (fun g => (basenamePosix (pyStrip g.2), pyStrip g.2))

/-- The full listing parse of on_apk_paths_fetched on a zero exit code. -/
def on_apk_paths_fetched_entries (stdout : List Char) : List (List Char × List Char) :=
  (pySplitlines stdout).filterMap parsePackageLine

def trailingEqLine : List Char := "package:a=b=".toList

def nameASample : List Char := "a".toList

def pathBEqSample : List Char := "b=".toList

def predictedNameSample : List Char := "a=b".toList

/-- C10 counterexample: a line whose text after the package prefix holds two
equals signs but ends in one does NOT split at the last equals sign: the
second group needs at least one character, so the regex backtracks to the
first separator, giving name a and path b= instead of name a=b. -/
theorem c10_counterexample :
    (trailingEqLine.drop 8).count '=' = 2 ∧
    searchPackageLine trailingEqLine = some (nameASample, pathBEqSample) ∧
    (searchPackageLine trailingEqLine).map Prod.fst ≠ some predictedNameSample := by decide

/-- A list is a Boolean prefix of itself extended by anything. -/
theorem isPrefixOf_append_self (p rest : List Char) : p.isPrefixOf (p ++ rest) = true := by
  induction p with
  | nil => simp [List.isPrefixOf]
  | cons a t ih => simp [List.isPrefixOf, ih]

/-- The last element surviving a filter over an initial segment of the
naturals is the largest satisfying index. -/
theorem getLast?_filter_range (p : Nat → Bool) (n k : Nat) (hk : p k = true) (hkn : k < n)
    (hgt : ∀ i, k < i → p i = false) :
    ((List.range n).filter p).getLast? = some k := by
  induction n with
  | zero => exact absurd hkn (Nat.not_lt_zero k)
  | succ m ih =>
    rw [List.range_succ, List.filter_append]
    by_cases hm : k = m
    · subst hm
      have hone : List.filter p [k] = [k] := by simp [List.filter, hk]
      rw [hone, List.getLast?_concat]
    · have hlt : k < m := by omega
      have hpm : p m = false := hgt m (by omega)
      have hnil : List.filter p [m] = [] := by simp [List.filter, hpm]
      rw [hnil, List.append_nil]
      exact ih hlt

/-- A successful group split right after the leading literal is what the
search returns, the literal being found at position zero. -/
theorem searchPackageLine_hit (rest : List Char) (g : List Char × List Char)
    (h : greedyEqSplit rest = some g) :
    searchPackageLine (packagePrefixNeedle ++ rest) = some g := by
  have hform : packagePrefixNeedle ++ rest =
      'p' :: ('a' :: 'c' :: 'k' :: 'a' :: 'g' :: 'e' :: ':' :: rest) := rfl
  rw [hform]
  simp only [searchPackageLine]
  have hpre : packagePrefixNeedle.isPrefixOf
      ('p' :: ('a' :: 'c' :: 'k' :: 'a' :: 'g' :: 'e' :: ':' :: rest)) = true :=
    isPrefixOf_append_self packagePrefixNeedle rest
  rw [if_pos hpre]
  have hdrop : ('p' :: ('a' :: 'c' :: 'k' :: 'a' :: 'g' :: 'e' :: ':' :: rest)).drop 8
      = rest := rfl
  rw [hdrop, h]

/-- C10 amended: the split lands on the last equals sign having at least one
character on each side. For a line of the form package: then u then an equals
sign then v, with u and v nonempty and v free of equals signs, the captured
name is u and the captured path is v: paths containing an equals sign lose
everything up to their last one, while a line ending in an equals sign
backtracks away from it. -/
theorem c10_amended (u v : List Char) (hu : u ≠ []) (hv : v ≠ []) (hveq : '=' ∉ v) :
    searchPackageLine (packagePrefixNeedle ++ (u ++ '=' :: v)) = some (u, v) := by
  have hul : 0 < u.length := List.length_pos.mpr hu
  have hvl : 0 < v.length := List.length_pos.mpr hv
  have hlen : (u ++ '=' :: v).length = u.length + v.length + 1 := by
    rw [List.length_append, List.length_cons]; omega
  have hsk : (u ++ '=' :: v)[u.length]? = some '=' := by
    rw [List.getElem?_append_right (le_refl u.length)]
    simp
  have hpk : (fun i => decide (1 ≤ i ∧ i + 1 < (u ++ '=' :: v).length ∧
      (u ++ '=' :: v)[i]? = some '=')) u.length = true := by
    refine decide_eq_true ⟨hul, ?_, hsk⟩
    rw [hlen]; omega
  have hpgt : ∀ i, u.length < i →
      (fun i => decide (1 ≤ i ∧ i + 1 < (u ++ '=' :: v).length ∧
        (u ++ '=' :: v)[i]? = some '=')) i = false := by
    intro i hi
    apply decide_eq_false
    rintro ⟨-, -, heq⟩
    rw [List.getElem?_append_right (by omega)] at heq
    have hj : i - u.length = (i - u.length - 1) + 1 := by omega
    rw [hj, List.getElem?_cons_succ] at heq
    exact hveq (List.getElem?_mem heq)
  have hkn : u.length < (u ++ '=' :: v).length := by rw [hlen]; omega
  have hfil := getLast?_filter_range
    (fun i => decide (1 ≤ i ∧ i + 1 < (u ++ '=' :: v).length ∧
      (u ++ '=' :: v)[i]? = some '='))
    ((u ++ '=' :: v).length) u.length hpk hkn hpgt
  have hsplit : greedyEqSplit (u ++ '=' :: v) = some (u, v) := by
    simp only [greedyEqSplit]
    rw [hfil]
    show some ((u ++ '=' :: v).take u.length, (u ++ '=' :: v).drop (u.length + 1)) = some (u, v)
    have htake : (u ++ '=' :: v).take u.length = u := List.take_left u ('=' :: v)
    have hdrop : (u ++ '=' :: v).drop (u.length + 1) = v := by
      have hcons : u ++ '=' :: v = (u ++ ['=']) ++ v := by simp
      rw [hcons, List.drop_left' (by simp)]
    rw [htake, hdrop]
  exact searchPackageLine_hit (u ++ '=' :: v) (u, v) hsplit

def c10u : List Char := "com.example=/data/app/x".toList

def c10v : List Char := "y/base.apk".toList

/-- C10 witness: a listing line whose path holds an equals sign records only
the suffix after the last separator as the remote path. -/
theorem c10_witness :
    searchPackageLine (packagePrefixNeedle ++ (c10u ++ '=' :: c10v)) = some (c10u, c10v) :=
  c10_amended c10u c10v (by decide) (by decide) (by decide)
